import Mathlib

/-!
Shallow embedding of `dramatiq/middleware/threading.py`: cross-thread
exception injection, the system-call interrupt controller, and the
platform/version capability checks, together with theorems settling the
specification claims about them.
-/

namespace DramatiqThreading

/-! ## Python strings and version tuples

`platform.python_version_tuple()` returns a tuple of *strings*; the source
compares it with `("3", "7")` using Python tuple ordering, which is
lexicographic on the components, themselves compared as strings
(lexicographic on character code points). -/

/-- Python string `<` : lexicographic comparison of character code points. -/
def charListLt : List Char → List Char → Bool
  | [], [] => false
  | [], _ :: _ => true
  | _ :: _, [] => false
  | a :: as, b :: bs =>
      if a.toNat < b.toNat then true
      else if b.toNat < a.toNat then false
      else charListLt as bs

/-- Python `str < str`. -/
def strLtB (a b : String) : Bool := charListLt a.data b.data

/-- Python tuple-of-strings `<`: lexicographic, a strict prefix is smaller. -/
def pyTupleLt : List String → List String → Bool
  | [], [] => false
  | [], _ :: _ => true
  | _ :: _, [] => false
  | a :: as, b :: bs =>
      if strLtB a b then true
      else if strLtB b a then false
      else pyTupleLt as bs

/-- The two ctypes integer types the module can select for thread ids. -/
inductive Ctype : Type
  | c_long : Ctype
  | c_ulong : Ctype
  deriving DecidableEq, Repr

/-- `thread_id_ctype = ctypes.c_long if python_version < ("3", "7") else ctypes.c_ulong`
with `python_version = platform.python_version_tuple()` (a tuple of strings). -/
def thread_id_ctype (python_version : List String) : Ctype :=
  if pyTupleLt python_version ["3", "7"] then Ctype.c_long else Ctype.c_ulong

/-- Value held by a ctypes integer constructed from a Python int, on a
64-bit platform (ctypes masks out-of-range values): `c_ulong` is unsigned
mod `2^64`, `c_long` is the signed interpretation of the same 64 bits. -/
def ctypeValue : Ctype → Int → Int
  | Ctype.c_ulong, n => n % (2 ^ 64 : Int)
  | Ctype.c_long, n =>
      let m := n % (2 ^ 64 : Int)
      if m < 2 ^ 63 then m else m - 2 ^ 64

/-! ## Exception payloads

`raise_thread_exception` accepts either an exception class or an instance;
`exctype` is `(exception if inspect.isclass(exception) else type(exception)).__name__`. -/

/-- An exception argument: either a class or an instance of a class,
identified by the class name. -/
inductive PyExcArg : Type
  | cls : String → PyExcArg
  | inst : String → PyExcArg
  deriving DecidableEq, Repr

/-- `(exception if inspect.isclass(exception) else type(exception)).__name__` -/
def excTypeName : PyExcArg → String
  | PyExcArg.cls n => n
  | PyExcArg.inst n => n

/-! ## Observable effects -/

/-- The disposition of the configured OS signal. -/
inductive SigHandler : Type
  | SIG_DFL : SigHandler
  | interruptHandler : SigHandler
  deriving DecidableEq, Repr

/-- Observable side effects of the operations, in program order. -/
inductive Event : Type
  | inject : Int → Event
  | retract : Int → Event
  | logCritical : String → Event
  | logDebug : String → Event
  | printOut : String → Event
  | siginterruptCall : String → Bool → Event
  | signalCall : String → SigHandler → Event
  | pthreadKill : Int → Bool → Event
  deriving DecidableEq, Repr

/-- Python `None`, the value every path of `raise_thread_exception` returns. -/
inductive PyVal : Type
  | none : PyVal
  deriving DecidableEq, Repr

/-- Result of a Python call: normal return with a value, or a propagated
exception, in both cases with the effects emitted along the way. -/
inductive Outcome : Type
  | ok : PyVal → List Event → Outcome
  | raised : String → List Event → Outcome
  deriving DecidableEq, Repr

/-- The value an `Outcome` returned normally, if any. -/
def retOf : Outcome → Option PyVal
  | Outcome.ok v _ => some v
  | Outcome.raised _ _ => Option.none

/-- The effects of an `Outcome`. -/
def eventsOf : Outcome → List Event
  | Outcome.ok _ es => es
  | Outcome.raised _ es => es

/-- Did the call return normally (no exception propagated)? -/
def isOk : Outcome → Bool
  | Outcome.ok _ _ => true
  | Outcome.raised _ _ => false

/-- Keep only the logging/printing effects of a trace. -/
def logEvents : List Event → List Event :=
  List.filter fun e =>
    match e with
    | Event.logCritical _ => true
    | Event.logDebug _ => true
    | Event.printOut _ => true
    | _ => false

/-! ## Module-level environment and controller state -/

/-- Load-time environment: the set of names the `signal` module defines and
the configured interrupt signal name
(`os.getenv('dramatiq_system_call_interrupt_signal', 'SIGUSR1')`). -/
structure Env : Type where
  signalModule : List String
  system_call_interrupt_signal : String
  deriving DecidableEq, Repr

/-- Default interrupt signal name when the environment variable is unset. -/
def defaultInterruptSignal : String := "SIGUSR1"

/-- `getattr(signal, system_call_interrupt_signal)`: the signal object
(modelled by its name) if defined, otherwise an `AttributeError`. -/
def getattrSignal (env : Env) : Option String :=
  if env.signalModule.contains env.system_call_interrupt_signal then
    some env.system_call_interrupt_signal
  else Option.none

/-- `hasattr(signal, system_call_interrupt_signal)`. -/
def hasattrSignal (env : Env) : Bool :=
  (getattrSignal env).isSome

/-- Process-wide mutable state touched by the controller: the
`system_call_interruptable` flag, the configured signal's handler
disposition and its siginterrupt setting. -/
structure CtrlState : Type where
  system_call_interruptable : Bool
  handlerDisposition : SigHandler
  siginterruptFlag : Bool
  deriving DecidableEq, Repr

/-- State at module load: `system_call_interruptable = False`, signal at its
default disposition. -/
def initState : CtrlState :=
  { system_call_interruptable := false
    handlerDisposition := SigHandler.SIG_DFL
    siginterruptFlag := false }

/-! ## The operations -/

/-- Message printed and debug-logged by the interrupt signal handler. -/
def interruptHandlerMessage : String := "Interrupting system call in worker thread."

/-- `interrupt_signal_handler(signum, frame)`: prints a line, logs the same
text at debug severity, and returns `None`; it mutates no state. -/
def interrupt_signal_handler (_signum : Int) (_frame : Unit) : PyVal × List Event :=
  (PyVal.none,
   [Event.printOut interruptHandlerMessage, Event.logDebug interruptHandlerMessage])

/-- `enable_system_call_interruptable_support()`: if the flag is clear and
the configured name is an attribute of `signal`, mark the signal as
interrupting system calls, install the no-op handler, and set the flag;
otherwise do nothing. Returns the new state and the effects performed. -/
def enable_system_call_interruptable_support (env : Env) (s : CtrlState) :
    CtrlState × List Event :=
  if !s.system_call_interruptable && hasattrSignal env then
    ({ system_call_interruptable := true
       handlerDisposition := SigHandler.interruptHandler
       siginterruptFlag := true },
     [Event.siginterruptCall env.system_call_interrupt_signal true,
      Event.signalCall env.system_call_interrupt_signal SigHandler.interruptHandler])
  else (s, [])

/-- `disable_system_call_interruptable_support()`: if the flag is set,
restore auto-restart behaviour and the default disposition and clear the
flag; a no-op otherwise. The `getattr` lookup is unguarded here, so the
call raises (`Option.none`) when the flag is set but the configured name is
not defined by `signal`. -/
def disable_system_call_interruptable_support (env : Env) (s : CtrlState) :
    Option (CtrlState × List Event) :=
  if s.system_call_interruptable then
    match getattrSignal env with
    | some sig =>
        some ({ system_call_interruptable := false
                handlerDisposition := SigHandler.SIG_DFL
                siginterruptFlag := false },
              [Event.siginterruptCall sig false,
               Event.signalCall sig SigHandler.SIG_DFL])
    | Option.none => Option.none
  else some (s, [])

/-- `logger.critical("Failed to set exception (%s) in thread %r.", exctype, thread_id.value)` -/
def failedToSetMessage (exctype : String) (tidv : Int) : String :=
  "Failed to set exception (" ++ exctype ++ ") in thread " ++ toString tidv ++ "."

/-- `logger.critical("Exception (%s) was set in multiple threads.  Undoing...", exctype)` -/
def multipleThreadsMessage (exctype : String) : String :=
  "Exception (" ++ exctype ++ ") was set in multiple threads.  Undoing..."

/-- `logger.critical("Setting thread exceptions (%s) is not supported for your current platform (%r).", exctype, current_platform)` -/
def unsupportedMessage (exctype : String) (plat : String) : String :=
  "Setting thread exceptions (" ++ exctype ++
    ") is not supported for your current platform (\x27" ++ plat ++ "\x27)."

/-- Result of `_raise_thread_exception_cpython`: the delivery count returned
by `PyThreadState_SetAsyncExc` and the effects performed. -/
structure CPyResult : Type where
  count : Nat
  events : List Event
  deriving DecidableEq, Repr

/-- `_raise_thread_exception_cpython(thread_id, exception)`. The delivery
count returned by the runtime call `PyThreadState_SetAsyncExc` is an input
(`setAsyncExcCount`): the function converts the thread id through the
selected ctype, performs the injection, logs critically on count `0`
(naming the exception type and the converted thread id), retracts the
injection and logs critically on count `> 1`, and returns the count. It
never raises. -/
def _raise_thread_exception_cpython (ct : Ctype) (thread_id : Int)
    (exception : PyExcArg) (setAsyncExcCount : Nat) : CPyResult :=
  let exctype := excTypeName exception
  let tidv := ctypeValue ct thread_id
  let count := setAsyncExcCount
  if count == 0 then
    { count := count
      events := [Event.inject tidv, Event.logCritical (failedToSetMessage exctype tidv)] }
  else if count > 1 then
    { count := count
      events := [Event.inject tidv, Event.logCritical (multipleThreadsMessage exctype),
                 Event.retract tidv] }
  else
    { count := count, events := [Event.inject tidv] }

/-- `raise_thread_exception(thread_id, exception)`. On CPython it runs the
injection core and, when the count is `1` and the flag is armed, sends the
wake signal via `pthread_kill` (a `ProcessLookupError` from a dead target —
`threadAlive = false` — is swallowed). On any other platform it only logs
critically. Every normal path returns `None`. -/
def raise_thread_exception (current_platform : String) (python_version : List String)
    (env : Env) (s : CtrlState) (thread_id : Int) (exception : PyExcArg)
    (setAsyncExcCount : Nat) (threadAlive : Bool) : Outcome :=
  if current_platform == "CPython" then
    let r := _raise_thread_exception_cpython (thread_id_ctype python_version)
      thread_id exception setAsyncExcCount
    if r.count == 1 && s.system_call_interruptable then
      match getattrSignal env with
      | some _ =>
          Outcome.ok PyVal.none (r.events ++ [Event.pthreadKill thread_id threadAlive])
      | Option.none => Outcome.raised "AttributeError" r.events
    else Outcome.ok PyVal.none r.events
  else
    Outcome.ok PyVal.none
      [Event.logCritical (unsupportedMessage (excTypeName exception) current_platform)]

/-! ## The exception class hierarchy

`Interrupt` is declared in the source as `class Interrupt(BaseException)`.
`BaseException` and `Exception` are the Python builtins. `DramatiqError` is
code of this repository outside the embedded file; Modelled from the spec:
the general application-error base, a subtype of the ordinary catch-all
`Exception`. -/

/-- The classes relevant to the `Interrupt` hierarchy claims. -/
inductive PyClass : Type
  | BaseException : PyClass
  | Exception : PyClass
  | DramatiqError : PyClass
  | Interrupt : PyClass
  deriving DecidableEq, Repr

/-- Direct base class of each class. `Interrupt` derives from
`BaseException` directly (source); `DramatiqError` from `Exception`
(Modelled from the spec: the general application-error hierarchy sits under
the catch-all base). -/
def pyBase : PyClass → Option PyClass
  | PyClass.BaseException => Option.none
  | PyClass.Exception => some PyClass.BaseException
  | PyClass.DramatiqError => some PyClass.Exception
  | PyClass.Interrupt => some PyClass.BaseException

/-- The chain of superclasses of a class (fuelled walk up `pyBase`). -/
def ancestorsAux : Nat → PyClass → List PyClass
  | 0, _ => []
  | n + 1, c =>
      c :: (match pyBase c with
            | some b => ancestorsAux n b
            | Option.none => [])

/-- All (reflexive, transitive) superclasses of a class. -/
def ancestors (c : PyClass) : List PyClass := ancestorsAux 4 c

/-- Python `issubclass(c, d)`. -/
def isSubclassB (c d : PyClass) : Bool := (ancestors c).contains d

/-- An `except C:` clause catches an exception of class `e` iff `e` is a
subclass of `C`. -/
def catches (handlerClass excClass : PyClass) : Bool := isSubclassB excClass handlerClass

/-! ## Concrete fixtures used by witnesses and counterexamples -/

/-- An environment in which the configured signal (the default `SIGUSR1`)
is defined by the `signal` module. -/
def envUSR1 : Env :=
  { signalModule := ["SIGUSR1", "SIGTERM"]
    system_call_interrupt_signal := "SIGUSR1" }

/-- An environment in which the configured signal name is not defined by
the `signal` module. -/
def envMissing : Env :=
  { signalModule := ["SIGTERM"]
    system_call_interrupt_signal := "SIGUSR1" }

/-- The controller state right after a successful `enable`. -/
def armedState : CtrlState :=
  { system_call_interruptable := true
    handlerDisposition := SigHandler.interruptHandler
    siginterruptFlag := true }

/-! ## Helper lemmas -/

/-- The CPython injection core always emits the injection first. -/
lemma cpython_events_head (ct : Ctype) (tid : Int) (exc : PyExcArg) (count : Nat) :
    ∃ rest, (_raise_thread_exception_cpython ct tid exc count).events =
      Event.inject (ctypeValue ct tid) :: rest := by
  rcases count with _ | _ | n <;>
    simp [_raise_thread_exception_cpython]

/-- The CPython injection core never calls `pthread_kill` itself. -/
lemma pthreadKill_not_mem_cpython (ct : Ctype) (tid : Int) (exc : PyExcArg)
    (count : Nat) (t : Int) (b : Bool) :
    Event.pthreadKill t b ∉ (_raise_thread_exception_cpython ct tid exc count).events := by
  rcases count with _ | _ | n <;>
    simp [_raise_thread_exception_cpython]

/-- The count the CPython injection core returns is the runtime's count. -/
lemma cpython_count (ct : Ctype) (tid : Int) (exc : PyExcArg) (count : Nat) :
    (_raise_thread_exception_cpython ct tid exc count).count = count := by
  rcases count with _ | _ | n <;>
    simp [_raise_thread_exception_cpython]

/-! ## Claim theorems -/

/-- C2: the claim says every runtime version 3.7 or newer — including 3.10
and above — selects the unsigned type `c_ulong`. The code compares the
*string* tuple `platform.python_version_tuple()` lexicographically with
`("3", "7")`, and `"10" < "7"` as strings, so Python 3.10 and later select
the signed `c_long` instead; versions 3.6 and below, and 3.7–3.9, behave
as claimed. This evaluates the selection at the failing input 3.10.0 and
at nearby versions. -/
theorem C2_version_selection_eval :
    thread_id_ctype ["3", "10", "0"] = Ctype.c_long ∧
    thread_id_ctype ["3", "12", "1"] = Ctype.c_long ∧
    thread_id_ctype ["3", "6", "9"] = Ctype.c_long ∧
    thread_id_ctype ["3", "7", "0"] = Ctype.c_ulong ∧
    thread_id_ctype ["3", "9", "18"] = Ctype.c_ulong ∧
    thread_id_ctype ["2", "7", "18"] = Ctype.c_long := by
  decide

/-- C5: for every injection attempt on CPython the core returns the
runtime's delivery count unchanged and never raises; count `0` adds one
critical log naming the exception type and the (marshalled) thread id;
count `1` performs only the injection; a count greater than `1` adds a
critical log naming the exception type and immediately retracts the
injection for that thread id. -/
theorem C5_count_classification (ct : Ctype) (tid : Int) (exc : PyExcArg) (count : Nat) :
    (_raise_thread_exception_cpython ct tid exc count).count = count ∧
    (count = 0 →
      (_raise_thread_exception_cpython ct tid exc count).events =
        [Event.inject (ctypeValue ct tid),
         Event.logCritical (failedToSetMessage (excTypeName exc) (ctypeValue ct tid))]) ∧
    (count = 1 →
      (_raise_thread_exception_cpython ct tid exc count).events =
        [Event.inject (ctypeValue ct tid)]) ∧
    (1 < count →
      (_raise_thread_exception_cpython ct tid exc count).events =
        [Event.inject (ctypeValue ct tid),
         Event.logCritical (multipleThreadsMessage (excTypeName exc)),
         Event.retract (ctypeValue ct tid)]) := by
  refine ⟨cpython_count ct tid exc count, ?_, ?_, ?_⟩ <;>
    rcases count with _ | _ | n <;>
      simp [_raise_thread_exception_cpython]

/-- C5 witness: concrete evaluation on a failed injection (count 0). -/
theorem C5_count_classification_witness :
    (_raise_thread_exception_cpython Ctype.c_ulong 7 (PyExcArg.cls "Interrupt") 0).events =
      [Event.inject (ctypeValue Ctype.c_ulong 7),
       Event.logCritical (failedToSetMessage "Interrupt" (ctypeValue Ctype.c_ulong 7))] :=
  (C5_count_classification Ctype.c_ulong 7 (PyExcArg.cls "Interrupt") 0).2.1 rfl

/-- C7 counterexample: the installed handler is not a trivial no-op — it
has observable output: its effect list is nonempty, containing a print to
standard output (and a debug log). -/
theorem C7_counterexample :
    (interrupt_signal_handler 10 ()).2 ≠ [] ∧
    Event.printOut interruptHandlerMessage ∈ (interrupt_signal_handler 10 ()).2 := by
  decide

/-- C7 amended: for every invocation the handler returns control to user
code normally (returning `None`) and mutates no state, but it does produce
observable output: it prints a fixed line to standard output and logs the
same text at debug severity, and nothing else. -/
theorem C7_handler_behaviour (signum : Int) (frame : Unit) :
    interrupt_signal_handler signum frame =
      (PyVal.none,
       [Event.printOut interruptHandlerMessage,
        Event.logDebug interruptHandlerMessage]) := rfl

/-- C9: `Interrupt` derives directly from `BaseException` and is not a
subclass of the application-error base `DramatiqError` (modelled from the
spec, as a subclass of the catch-all `Exception`) nor of `Exception`
itself, so `except DramatiqError:` and `except Exception:` handlers do not
catch an `Interrupt`. -/
theorem C9_interrupt_hierarchy :
    isSubclassB PyClass.Interrupt PyClass.DramatiqError = false ∧
    isSubclassB PyClass.Interrupt PyClass.Exception = false ∧
    isSubclassB PyClass.Interrupt PyClass.BaseException = true ∧
    catches PyClass.DramatiqError PyClass.Interrupt = false ∧
    catches PyClass.Exception PyClass.Interrupt = false ∧
    catches PyClass.BaseException PyClass.Interrupt = true := by
  decide

/-- C1 counterexample: the return value of `raise_thread_exception` does
not reflect the injection outcome — a failed injection (count 0) and a
successful one (count 1) both return the same value, `None`. -/
theorem C1_counterexample :
    retOf (raise_thread_exception "CPython" ["3", "8", "0"] envUSR1 initState 7
        (PyExcArg.cls "Interrupt") 0 true) =
      retOf (raise_thread_exception "CPython" ["3", "8", "0"] envUSR1 initState 7
        (PyExcArg.cls "Interrupt") 1 true) ∧
    retOf (raise_thread_exception "CPython" ["3", "8", "0"] envUSR1 initState 7
        (PyExcArg.cls "Interrupt") 0 true) = some PyVal.none := by
  decide

/-- C1 amended: `raise_thread_exception` returns `None` on every normal
path regardless of the injection step's outcome (the function has no
`return` statement), and the best-effort wake-signal step never changes
that return value: the result is the same whether the target thread is
alive or has exited. The hypothesis is the module invariant that the flag
is only armed when the configured signal exists. -/
theorem C1_returns_none (plat : String) (version : List String) (env : Env)
    (s : CtrlState) (tid : Int) (exc : PyExcArg) (count : Nat) (alive : Bool)
    (hinv : s.system_call_interruptable = true → hasattrSignal env = true) :
    retOf (raise_thread_exception plat version env s tid exc count alive) =
      some PyVal.none ∧
    retOf (raise_thread_exception plat version env s tid exc count alive) =
      retOf (raise_thread_exception plat version env s tid exc count true) := by
  have key : ∀ a : Bool,
      retOf (raise_thread_exception plat version env s tid exc count a) =
        some PyVal.none := by
    intro a
    unfold raise_thread_exception
    by_cases hp : (plat == "CPython") = true
    · by_cases hc : ((_raise_thread_exception_cpython (thread_id_ctype version)
          tid exc count).count == 1 && s.system_call_interruptable) = true
      · have hflag : s.system_call_interruptable = true :=
          ((Bool.and_eq_true _ _).mp hc).2
        obtain ⟨sig, hsig⟩ := Option.isSome_iff_exists.mp (hinv hflag)
        simp [hp, hc, hsig, retOf]
      · simp [hp, hc, retOf]
    · simp [hp, retOf]
  exact ⟨key alive, (key alive).trans (key true).symm⟩

/-- C1 witness: concrete evaluation with the flag armed and a dead target
thread. -/
theorem C1_returns_none_witness :
    retOf (raise_thread_exception "CPython" ["3", "8", "0"] envUSR1 armedState 7
        (PyExcArg.cls "Interrupt") 1 false) = some PyVal.none ∧
    retOf (raise_thread_exception "CPython" ["3", "8", "0"] envUSR1 armedState 7
        (PyExcArg.cls "Interrupt") 1 false) =
      retOf (raise_thread_exception "CPython" ["3", "8", "0"] envUSR1 armedState 7
        (PyExcArg.cls "Interrupt") 1 true) :=
  C1_returns_none "CPython" ["3", "8", "0"] envUSR1 armedState 7
    (PyExcArg.cls "Interrupt") 1 false (by decide)

/-- C3: enable and disable are idempotent — applying `enable` to the state
`enable` produced returns that state unchanged and performs no effects (no
second handler registration), and `disable` on a state whose flag is
already clear returns the state unchanged with no effects (no handler
restoration). -/
theorem C3_enable_disable_idempotent (env : Env) (s : CtrlState) :
    enable_system_call_interruptable_support env
        (enable_system_call_interruptable_support env s).1 =
      ((enable_system_call_interruptable_support env s).1, []) ∧
    (s.system_call_interruptable = false →
      disable_system_call_interruptable_support env s = some (s, [])) := by
  constructor
  · by_cases hf : s.system_call_interruptable = true
    · simp [enable_system_call_interruptable_support, hf]
    · by_cases hh : hasattrSignal env = true
      · simp [enable_system_call_interruptable_support, hf, hh]
      · simp [enable_system_call_interruptable_support, hf, hh]
  · intro hf
    simp [disable_system_call_interruptable_support, hf]

/-- C3 witness: concrete evaluation from the load-time state. -/
theorem C3_enable_disable_idempotent_witness :
    enable_system_call_interruptable_support envUSR1
        (enable_system_call_interruptable_support envUSR1 initState).1 =
      ((enable_system_call_interruptable_support envUSR1 initState).1, []) ∧
    disable_system_call_interruptable_support envUSR1 initState =
      some (initState, []) :=
  ⟨(C3_enable_disable_idempotent envUSR1 initState).1,
   (C3_enable_disable_idempotent envUSR1 initState).2 rfl⟩

/-- C6: on a platform other than CPython, `raise_thread_exception`
performs no injection and no wake-signal delivery: its only effect is one
critical-severity log whose message names the exception type (the class
name, whether a class or an instance was passed) and the platform, and it
returns `None`. -/
theorem C6_unsupported_platform (plat : String) (version : List String) (env : Env)
    (s : CtrlState) (tid : Int) (exc : PyExcArg) (count : Nat) (alive : Bool)
    (h : plat ≠ "CPython") :
    raise_thread_exception plat version env s tid exc count alive =
      Outcome.ok PyVal.none
        [Event.logCritical (unsupportedMessage (excTypeName exc) plat)] ∧
    (∀ t, Event.inject t ∉
      eventsOf (raise_thread_exception plat version env s tid exc count alive)) ∧
    (∀ t b, Event.pthreadKill t b ∉
      eventsOf (raise_thread_exception plat version env s tid exc count alive)) ∧
    (∀ n, excTypeName (PyExcArg.cls n) = excTypeName (PyExcArg.inst n)) := by
  have hb : (plat == "CPython") = false := by
    simpa using h
  refine ⟨?_, ?_, ?_, fun n => rfl⟩ <;>
    simp [raise_thread_exception, hb, eventsOf]

/-- C6 witness: concrete evaluation on PyPy with an exception instance. -/
theorem C6_unsupported_platform_witness :
    raise_thread_exception "PyPy" ["3", "8", "0"] envUSR1 armedState 7
        (PyExcArg.inst "Interrupt") 1 true =
      Outcome.ok PyVal.none
        [Event.logCritical (unsupportedMessage "Interrupt" "PyPy")] :=
  (C6_unsupported_platform "PyPy" ["3", "8", "0"] envUSR1 armedState 7
    (PyExcArg.inst "Interrupt") 1 true (by decide)).1

/-- C4: on CPython (with the configured signal defined), the injection is
always the first effect — in particular it precedes any wake-signal
delivery — and `pthread_kill` is invoked on the target thread if and only
if the injection's delivery count was exactly `1` and the
`system_call_interruptable` flag is armed. -/
theorem C4_wake_signal_iff (version : List String) (env : Env) (s : CtrlState)
    (tid : Int) (exc : PyExcArg) (count : Nat) (alive : Bool)
    (hhas : hasattrSignal env = true) :
    (∃ rest,
      eventsOf (raise_thread_exception "CPython" version env s tid exc count alive) =
        Event.inject (ctypeValue (thread_id_ctype version) tid) :: rest) ∧
    ((∃ b, Event.pthreadKill tid b ∈
        eventsOf (raise_thread_exception "CPython" version env s tid exc count alive)) ↔
      (count = 1 ∧ s.system_call_interruptable = true)) := by
  obtain ⟨sig, hsig⟩ := Option.isSome_iff_exists.mp hhas
  obtain ⟨rest, hrest⟩ := cpython_events_head (thread_id_ctype version) tid exc count
  have hcount := cpython_count (thread_id_ctype version) tid exc count
  by_cases hc : ((_raise_thread_exception_cpython (thread_id_ctype version)
      tid exc count).count == 1 && s.system_call_interruptable) = true
  · have h1 : count = 1 := by
      have hb := ((Bool.and_eq_true _ _).mp hc).1
      rw [hcount] at hb
      exact eq_of_beq hb
    have hflag := ((Bool.and_eq_true _ _).mp hc).2
    constructor
    · refine ⟨rest ++ [Event.pthreadKill tid alive], ?_⟩
      simp [raise_thread_exception, hc, hsig, eventsOf, hrest]
    · constructor
      · intro _
        exact ⟨h1, hflag⟩
      · intro _
        refine ⟨alive, ?_⟩
        simp [raise_thread_exception, hc, hsig, eventsOf]
  · constructor
    · refine ⟨rest, ?_⟩
      simp [raise_thread_exception, hc, eventsOf, hrest]
    · constructor
      · rintro ⟨b, hb⟩
        exfalso
        apply pthreadKill_not_mem_cpython (thread_id_ctype version) tid exc count tid b
        simpa [raise_thread_exception, hc, eventsOf] using hb
      · rintro ⟨h1, hflag⟩
        exfalso
        apply hc
        rw [Bool.and_eq_true, hcount]
        exact ⟨by simp [h1], hflag⟩

/-- C4 witness: with the flag armed and a count of `1`, the wake signal is
delivered to the concrete target thread. -/
theorem C4_wake_signal_iff_witness :
    ∃ b, Event.pthreadKill 7 b ∈
      eventsOf (raise_thread_exception "CPython" ["3", "8", "0"] envUSR1 armedState 7
        (PyExcArg.cls "Interrupt") 1 true) :=
  ((C4_wake_signal_iff ["3", "8", "0"] envUSR1 armedState 7
      (PyExcArg.cls "Interrupt") 1 true (by decide)).2).mpr ⟨rfl, rfl⟩

/-- C8: when the wake-signal path runs (count `1`, flag armed, signal
defined) but the target thread has already exited, the
`ProcessLookupError` from `pthread_kill` is swallowed: the call still
returns normally with `None`, nothing at all is logged, and the returned
value and the logging surface are identical to a run in which delivery
succeeded. -/
theorem C8_dead_target_swallowed (version : List String) (env : Env) (s : CtrlState)
    (tid : Int) (exc : PyExcArg)
    (hflag : s.system_call_interruptable = true) (hhas : hasattrSignal env = true) :
    isOk (raise_thread_exception "CPython" version env s tid exc 1 false) = true ∧
    retOf (raise_thread_exception "CPython" version env s tid exc 1 false) =
      some PyVal.none ∧
    logEvents (eventsOf (raise_thread_exception "CPython" version env s tid exc 1 false)) =
      [] ∧
    logEvents (eventsOf (raise_thread_exception "CPython" version env s tid exc 1 false)) =
      logEvents (eventsOf (raise_thread_exception "CPython" version env s tid exc 1 true)) ∧
    retOf (raise_thread_exception "CPython" version env s tid exc 1 false) =
      retOf (raise_thread_exception "CPython" version env s tid exc 1 true) := by
  obtain ⟨sig, hsig⟩ := Option.isSome_iff_exists.mp hhas
  have hev : ∀ a : Bool,
      raise_thread_exception "CPython" version env s tid exc 1 a =
        Outcome.ok PyVal.none
          [Event.inject (ctypeValue (thread_id_ctype version) tid),
           Event.pthreadKill tid a] := by
    intro a
    simp [raise_thread_exception, _raise_thread_exception_cpython, hflag, hsig]
  simp [hev, isOk, retOf, eventsOf, logEvents]

/-- C8 witness: concrete evaluation with a dead target thread. -/
theorem C8_dead_target_swallowed_witness :
    isOk (raise_thread_exception "CPython" ["3", "8", "0"] envUSR1 armedState 7
        (PyExcArg.inst "Interrupt") 1 false) = true ∧
    logEvents (eventsOf (raise_thread_exception "CPython" ["3", "8", "0"] envUSR1
        armedState 7 (PyExcArg.inst "Interrupt") 1 false)) = [] :=
  ⟨(C8_dead_target_swallowed ["3", "8", "0"] envUSR1 armedState 7
      (PyExcArg.inst "Interrupt") rfl (by decide)).1,
   (C8_dead_target_swallowed ["3", "8", "0"] envUSR1 armedState 7
      (PyExcArg.inst "Interrupt") rfl (by decide)).2.2.1⟩

/-- C10: the invariant "flag armed → the configured signal name is defined
by the signal module" holds at load time, is established/preserved by
`enable`, preserved by `disable`, and under it the unguarded signal
lookups cannot fail: `disable` never raises, and `raise_thread_exception`
always returns normally on every platform; moreover when the configured
name is not a defined signal, `enable` leaves the flag clear and installs
nothing. -/
theorem C10_flag_invariant (env : Env) (s : CtrlState)
    (hinv : s.system_call_interruptable = true → hasattrSignal env = true) :
    (initState.system_call_interruptable = true → hasattrSignal env = true) ∧
    ((enable_system_call_interruptable_support env s).1.system_call_interruptable = true →
      hasattrSignal env = true) ∧
    (∀ r, disable_system_call_interruptable_support env s = some r →
      (r.1.system_call_interruptable = true → hasattrSignal env = true)) ∧
    disable_system_call_interruptable_support env s ≠ Option.none ∧
    (∀ plat version tid exc count alive,
      isOk (raise_thread_exception plat version env s tid exc count alive) = true) ∧
    (hasattrSignal env = false →
      (enable_system_call_interruptable_support env s).1.system_call_interruptable
        = false ∧
      (enable_system_call_interruptable_support env s).2 = []) := by
  have hdis : disable_system_call_interruptable_support env s ≠ Option.none ∧
      (∀ r, disable_system_call_interruptable_support env s = some r →
        r.1.system_call_interruptable = false ∨ r.1 = s) := by
    by_cases hf : s.system_call_interruptable = true
    · obtain ⟨sig, hsig⟩ := Option.isSome_iff_exists.mp (hinv hf)
      constructor
      · simp [disable_system_call_interruptable_support, hf, hsig]
      · intro r hr
        left
        simp [disable_system_call_interruptable_support, hf, hsig] at hr
        rw [← hr]
    · constructor
      · simp [disable_system_call_interruptable_support, hf]
      · intro r hr
        right
        simp [disable_system_call_interruptable_support, hf] at hr
        rw [← hr]
  refine ⟨?_, ?_, ?_, hdis.1, ?_, ?_⟩
  · intro h
    simp [initState] at h
  · by_cases hf : s.system_call_interruptable = true
    · simpa [enable_system_call_interruptable_support, hf] using hinv
    · by_cases hh : hasattrSignal env = true
      · intro _
        exact hh
      · simp [enable_system_call_interruptable_support, hf, hh]
  · intro r hr
    rcases hdis.2 r hr with h | h
    · intro hcontra
      rw [h] at hcontra
      exact absurd hcontra (by simp)
    · rw [h]
      exact hinv
  · intro plat version tid exc count alive
    unfold raise_thread_exception
    by_cases hp : (plat == "CPython") = true
    · by_cases hc : ((_raise_thread_exception_cpython (thread_id_ctype version)
          tid exc count).count == 1 && s.system_call_interruptable) = true
      · have hflag : s.system_call_interruptable = true :=
          ((Bool.and_eq_true _ _).mp hc).2
        obtain ⟨sig, hsig⟩ := Option.isSome_iff_exists.mp (hinv hflag)
        simp [hp, hc, hsig, isOk]
      · simp [hp, hc, isOk]
    · simp [hp, isOk]
  · intro hno
    have hf : s.system_call_interruptable = false := by
      cases h : s.system_call_interruptable
      · rfl
      · exact absurd (hinv h) (by simp [hno])
    simp [enable_system_call_interruptable_support, hf, hno]

/-- C10 witness: from the armed state over an environment defining the
configured signal, the unguarded lookup in `disable` cannot fail. -/
theorem C10_flag_invariant_witness :
    disable_system_call_interruptable_support envUSR1 armedState ≠ Option.none :=
  (C10_flag_invariant envUSR1 armedState (fun _ => by decide)).2.2.2.1

end DramatiqThreading
